import Mathlib

/-!
Verification of the RSSI heatmap tracker domain core
(`streamlit_app.py`) against its natural-language specification.

The store is the session list `st.session_state.data_points`; points are
dicts with keys `x`, `y`, `rssi`, `quality`, `timestamp`.  Coordinates are
modelled as rationals (Python floats that are only ever passed through,
never computed with), `rssi` as an integer, the timestamp as an opaque
tick supplied by the caller (the code calls `datetime.now()`).
-/

namespace RssiTracker

/-- Signal quality labels, the five strings returned by `get_rssi_quality`. -/
inductive Quality where
  | Excellent
  | Good
  | Fair
  | Poor
  | Critical
deriving DecidableEq, Repr

/-- Threshold ladder of `get_rssi_quality` (lines 36-47): top-down
`if/elif` chain, first match wins. -/
def get_rssi_quality (rssi : Int) : Quality :=
  if -60 ≤ rssi then .Excellent
  else if -70 ≤ rssi then .Good
  else if -80 ≤ rssi then .Fair
  else if -90 ≤ rssi then .Poor
  else .Critical

/-- One measurement point, the dict built in `add_data_point`
(lines 27-33), with the same field order: x, y, rssi, quality, timestamp. -/
structure Point where
  x : ℚ
  y : ℚ
  rssi : Int
  quality : Quality
  timestamp : Nat
deriving DecidableEq, Repr

/-- The body of `add_data_point` (lines 24-34): compute the quality from
rssi, build the dict and append it to the session list.  The code performs
no range validation on `rssi`. -/
def add_data_point (store : List Point) (x y : ℚ) (rssi : Int) (ts : Nat) :
    List Point :=
  store ++ [{ x := x, y := y, rssi := rssi,
              quality := get_rssi_quality rssi, timestamp := ts }]

/-- A loop of `add_data_point` calls over raw `(x, y, rssi)` tuples,
as in the demo button (lines 175-176) and the CSV import loop
(lines 195-196). -/
def add_rows (store : List Point) (rows : List (ℚ × ℚ × Int)) (ts : Nat) :
    List Point :=
  rows.foldl (fun s r => add_data_point s r.1 r.2.1 r.2.2 ts) store

/-- The twelve demo tuples of the Demo Data button (lines 170-174). -/
def demo_points : List (ℚ × ℚ × Int) :=
  [(0, 0, -55), (5, 3, -62), (10, -2, -68), (15, 4, -75),
   (-5, 8, -58), (8, 10, -72), (12, -5, -78), (-8, -3, -65),
   (20, 8, -82), (-12, 12, -70), (18, -8, -85), (-15, -10, -88)]

/-- The Demo Data button body (lines 168-178): it loops `add_data_point`
over `demo_points` starting from the current store; it does NOT clear the
store first. -/
def load_demo_data (store : List Point) (ts : Nat) : List Point :=
  add_rows store demo_points ts

/-- The CSV import block body after a successful column check
(lines 194-196): it sets the session list to `[]` and then calls
`add_data_point` for every parsed row; the prior store is discarded and
no per-row validation happens. -/
def import_csv_rows (_store : List Point) (rows : List (ℚ × ℚ × Int))
    (ts : Nat) : List Point :=
  add_rows [] rows ts

/-- The statistics dict built by `calculate_stats` (lines 125-137),
field for field. -/
structure Stats where
  total_points : Nat
  avg_rssi : ℚ
  min_rssi : Int
  max_rssi : Int
  excellent : Nat
  good : Nat
  fair : Nat
  poor : Nat
  critical : Nat
  agv_suitable : Nat
  coverage_percent : ℚ
deriving DecidableEq, Repr

/-- `calculate_stats` (lines 117-139): returns the empty dict `{}` when
the store is empty (modelled as `none`), otherwise the populated stats
dict.  The counts are the dataframe filter lengths of lines 130-135; the
`if len(df) > 0 else 0` guard of line 136 is inside the non-empty branch
and so always takes the division. -/
def calculate_stats (pts : List Point) : Option Stats :=
  match pts with
  | [] => none
  | p :: rest =>
    some {
      total_points := (p :: rest).length
      avg_rssi := (((p :: rest).map (·.rssi)).sum : ℚ) / (p :: rest).length
      min_rssi := rest.foldl (fun m q => min m q.rssi) p.rssi
      max_rssi := rest.foldl (fun m q => max m q.rssi) p.rssi
      excellent := (p :: rest).countP (fun q => decide (-60 ≤ q.rssi))
      good := (p :: rest).countP (fun q => decide (-70 ≤ q.rssi ∧ q.rssi < -60))
      fair := (p :: rest).countP (fun q => decide (-80 ≤ q.rssi ∧ q.rssi < -70))
      poor := (p :: rest).countP (fun q => decide (-90 ≤ q.rssi ∧ q.rssi < -80))
      critical := (p :: rest).countP (fun q => decide (q.rssi < -90))
      agv_suitable := (p :: rest).countP (fun q => decide (-70 ≤ q.rssi))
      coverage_percent :=
        ((p :: rest).countP (fun q => decide (-70 ≤ q.rssi)) : ℚ) /
          (p :: rest).length * 100 }

/-- Readiness verdicts of the assessment block (lines 282-290). -/
inductive Verdict where
  | Ready
  | NeedsImprovement
  | NotReady
deriving DecidableEq, Repr

/-- The readiness ladder of lines 282-290 (and, with different labels,
line 338): top-down on the coverage percentage. -/
def readinessVerdict (c : ℚ) : Verdict :=
  if 95 ≤ c then .Ready
  else if 80 ≤ c then .NeedsImprovement
  else .NotReady

/-- The readiness label of the report line 338:
`"READY" if cov >= 95 else "NEEDS WORK" if cov >= 80 else "NOT READY"`. -/
def readinessLabel (c : ℚ) : String :=
  if 95 ≤ c then ("READY")
  else if 80 ≤ c then ("NEEDS WORK")
  else ("NOT READY")

/-- The quality strings stored by the code. -/
def qualityName : Quality → String
  | .Excellent => "Excellent"
  | .Good => "Good"
  | .Fair => "Fair"
  | .Poor => "Poor"
  | .Critical => "Critical"

/-- Round half to even, the tie-breaking rule of Python fixed-point
formatting (the source renders through `f"{v:.0f}"` and `f"{v:.1f}"`). -/
def roundHalfEven (q : ℚ) : Int :=
  if q - ⌊q⌋ < 1 / 2 then ⌊q⌋
  else if 1 / 2 < q - ⌊q⌋ then ⌊q⌋ + 1
  else if ⌊q⌋ % 2 = 0 then ⌊q⌋ else ⌊q⌋ + 1

/-- Python `f"{v:.0f}"` on a rational value. -/
def fmt0 (q : ℚ) : String :=
  toString (roundHalfEven q)

/-- Python `f"{v:.1f}"` on a (non-negative, as used here) rational value. -/
def fmt1 (q : ℚ) : String :=
  toString (roundHalfEven (10 * q) / 10) ++ "." ++
    toString ((roundHalfEven (10 * q) % 10).natAbs)

/-- The report f-string of lines 319-339, line by line (the leading and
trailing newlines of the triple-quoted string give the empty first and
last lines).  The source interpolates only `stats` fields and the
generation time; the `pts` argument — the stored points — is never used:
the report has no per-point lines. -/
def renderReport (genTime : String) (s : Stats) (pts : List Point) :
    List String :=
  let _ := pts
  [ "",
    "RSSI HEATMAP SURVEY REPORT",
    "=========================",
    "Generated: " ++ genTime,
    "Total Data Points: " ++ toString s.total_points,
    "",
    "SIGNAL STRENGTH ANALYSIS:",
    "- Average RSSI: " ++ fmt0 s.avg_rssi ++ " dBm",
    "- Minimum RSSI: " ++ fmt0 (s.min_rssi : ℚ) ++ " dBm",
    "- Maximum RSSI: " ++ fmt0 (s.max_rssi : ℚ) ++ " dBm",
    "- AGV Suitable Coverage: " ++ fmt1 s.coverage_percent ++ "%",
    "",
    "QUALITY BREAKDOWN:",
    "- Excellent (≥-60 dBm): " ++ toString s.excellent ++ " points",
    "- Good (-70 to -60 dBm): " ++ toString s.good ++ " points  ",
    "- Fair (-80 to -70 dBm): " ++ toString s.fair ++ " points",
    "- Poor (-90 to -80 dBm): " ++ toString s.poor ++ " points",
    "- Critical (<-90 dBm): " ++ toString s.critical ++ " points",
    "",
    "AGV/AMR READINESS: " ++ readinessLabel s.coverage_percent,
    "" ]

/-- One CSV cell.  Modelled from the spec: the textual serialization is
done by `pandas` (`df.to_csv` on export, `pd.read_csv` on import), which
is not part of `src/`; spec §4.2 says values are "rendered in their
natural textual form" with plain comma-joining and no quoting, so a cell
is either a number or a plain string, which are distinguishable in the
text. -/
inductive CsvCell where
  | num (q : ℚ)
  | str (s : String)
deriving DecidableEq, Repr

/-- Modelled from the spec: `renderCsv` (§4.2) — `df.to_csv(index=False)`
is not in `src/`.  Header row `x,y,rssi,quality,timestamp` (the dict key
order of `add_data_point`, which fixes the exported column order per
spec §6), then one row per point in insertion order. -/
def renderCsv (pts : List Point) : List (List CsvCell) :=
  [.str ("x"), .str ("y"), .str ("rssi"), .str ("quality"), .str ("timestamp")] ::
    pts.map (fun p =>
      [.num p.x, .num p.y, .num (p.rssi : ℚ),
       .str (qualityName p.quality), .str (toString p.timestamp)])

/-- One data row of the import: read the cells at the `x`, `y` and `rssi`
column positions; a numeric field that is missing or non-numeric fails
(spec §4.2: "unparseable numeric field" is an `ImportError`), and `rssi`
must be an integer (spec §3: integer signal strength). -/
def parseCsvRow (ix iy ir : Nat) (row : List CsvCell) :
    Option (ℚ × ℚ × Int) :=
  match row[ix]?, row[iy]?, row[ir]? with
  | some (.num qx), some (.num qy), some (.num qr) =>
    if qr.den = 1 then some (qx, qy, qr.num) else none
  | _, _, _ => none

/-- All data rows of the import, in order; the first failing row fails
the parse. -/
def parseCsvRows (ix iy ir : Nat) : List (List CsvCell) →
    Option (List (ℚ × ℚ × Int))
  | [] => some []
  | row :: rest => do
    let t ← parseCsvRow ix iy ir row
    let ts ← parseCsvRows ix iy ir rest
    pure (t :: ts)

/-- Modelled from the spec: `parseCsvImport` (§4.2) — `pd.read_csv` is
not in `src/`; the column check `all(col in df.columns for col in
['x','y','rssi'])` and the by-name row access `row['x']`, `row['y']`,
`row['rssi']` are the code of lines 193-196.  Required columns are looked
up by name in the header, any column order, extra columns ignored;
a missing required column fails the import. -/
def parseCsvImport (table : List (List CsvCell)) :
    Option (List (ℚ × ℚ × Int)) :=
  match table with
  | [] => none
  | header :: rows =>
    match header.findIdx? (· == CsvCell.str ("x")),
          header.findIdx? (· == CsvCell.str ("y")),
          header.findIdx? (· == CsvCell.str ("rssi")) with
    | some ix, some iy, some ir => parseCsvRows ix iy ir rows
    | _, _, _ => none

/-- The store mutations reachable from the UI: the Add Point form, the
Clear All button, the Demo Data button and the CSV upload (each carrying
the clock tick the code reads with `datetime.now()`). -/
inductive Op where
  | addPoint (x y : ℚ) (rssi : Int) (ts : Nat)
  | clearAll
  | demo (ts : Nat)
  | importCsv (rows : List (ℚ × ℚ × Int)) (ts : Nat)

/-- Effect of one UI operation on the session store. -/
def step (s : List Point) : Op → List Point
  | .addPoint x y rssi ts => add_data_point s x y rssi ts
  | .clearAll => []
  | .demo ts => load_demo_data s ts
  | .importCsv rows ts => import_csv_rows s rows ts

/-- The store after a sequence of UI operations, starting from the empty
session store of line 18. -/
def run (ops : List Op) : List Point :=
  ops.foldl step []

/-! ### Helper lemmas -/

theorem add_rows_cons (s : List Point) (r : ℚ × ℚ × Int)
    (rows : List (ℚ × ℚ × Int)) (ts : Nat) :
    add_rows s (r :: rows) ts =
      add_rows (add_data_point s r.1 r.2.1 r.2.2 ts) rows ts := rfl

theorem add_rows_nil (s : List Point) (ts : Nat) : add_rows s [] ts = s := rfl

theorem add_rows_eq_append (rows : List (ℚ × ℚ × Int)) :
    ∀ (s : List Point) (ts : Nat), add_rows s rows ts = s ++ add_rows [] rows ts := by
  induction rows with
  | nil => intro s ts; simp [add_rows]
  | cons r rows ih =>
    intro s ts
    rw [add_rows_cons, ih, add_rows_cons,
      ih (add_data_point [] r.1 r.2.1 r.2.2 ts) ts]
    simp [add_data_point]

theorem add_rows_map (rows : List (ℚ × ℚ × Int)) (ts : Nat) :
    (add_rows [] rows ts).map (fun p => (p.x, p.y, p.rssi)) = rows := by
  induction rows with
  | nil => rfl
  | cons r rows ih =>
    rw [add_rows_cons, add_rows_eq_append rows (add_data_point [] r.1 r.2.1 r.2.2 ts) ts]
    simp [add_data_point, ih]

theorem add_rows_quality (rows : List (ℚ × ℚ × Int)) :
    ∀ (s : List Point) (ts : Nat) (p : Point), p ∈ add_rows s rows ts →
      p ∈ s ∨ p.quality = get_rssi_quality p.rssi := by
  induction rows with
  | nil => intro s ts p h; exact Or.inl h
  | cons r rows ih =>
    intro s ts p h
    rw [add_rows_cons] at h
    rcases ih _ ts p h with h2 | h2
    · simp only [add_data_point, List.mem_append, List.mem_singleton] at h2
      rcases h2 with h3 | h3
      · exact Or.inl h3
      · subst h3; exact Or.inr rfl
    · exact Or.inr h2

theorem countP_bands_partition (l : List Point) :
    l.countP (fun q => decide (-60 ≤ q.rssi)) +
      l.countP (fun q => decide (-70 ≤ q.rssi ∧ q.rssi < -60)) +
      l.countP (fun q => decide (-80 ≤ q.rssi ∧ q.rssi < -70)) +
      l.countP (fun q => decide (-90 ≤ q.rssi ∧ q.rssi < -80)) +
      l.countP (fun q => decide (q.rssi < -90)) = l.length := by
  induction l with
  | nil => rfl
  | cons p l ih =>
    simp only [List.countP_cons, List.length_cons]
    split_ifs <;> simp_all only [decide_eq_true_eq] <;> omega

/-! ### Claim theorems -/

/-- Claim C1, counterexample: `add(0, 0, -10)` with `rssi = -10` outside
[-120, -20] does not leave the store unchanged — the count changes from 0
to 1, so the operation did not fail. -/
theorem add_out_of_range_not_rejected :
    (add_data_point [] 0 0 (-10) 0).length ≠ ([] : List Point).length := by
  decide

/-- Claim C1 (amended): for every x, y and every integer rssi outside
[-120, -20], `add_data_point` does not fail: it appends the point (with
`quality = get_rssi_quality rssi`) and the count increases by one — the
core performs no range validation; only the UI input widget clamps. -/
theorem add_appends_even_out_of_range (store : List Point) (x y : ℚ)
    (rssi : Int) (ts : Nat) (_h : rssi < -120 ∨ -20 < rssi) :
    (add_data_point store x y rssi ts).length = store.length + 1 ∧
    add_data_point store x y rssi ts =
      store ++ [{ x := x, y := y, rssi := rssi,
                  quality := get_rssi_quality rssi, timestamp := ts }] :=
  ⟨by simp [add_data_point], rfl⟩

/-- Claim C1, witness for the amended theorem at rssi = -10. -/
theorem add_appends_even_out_of_range_witness :
    ((-10 : Int) < -120 ∨ (-20 : Int) < -10) ∧
    (add_data_point [] 0 0 (-10) 0).length = ([] : List Point).length + 1 :=
  ⟨Or.inr (by decide),
   (add_appends_even_out_of_range [] 0 0 (-10) 0 (Or.inr (by decide))).1⟩

/-- Claim C2, counterexample: importing the single invalid row
`(1, 1, -10)` over a one-point store does not leave the store at its
prior state — the invalid row is imported and the prior point is gone. -/
theorem import_invalid_row_replaces_store :
    import_csv_rows
        [{ x := 0, y := 0, rssi := -55, quality := .Excellent, timestamp := 0 }]
        [(1, 1, -10)] 0 ≠
      [{ x := 0, y := 0, rssi := -55, quality := .Excellent, timestamp := 0 }] := by
  decide

/-- Claim C2 (amended): the bulk CSV import never fails on an invalid
rssi value: it discards the prior store and imports every row, so after
the import the store holds exactly the imported `(x, y, rssi)` tuples in
order — including out-of-range ones — regardless of the prior state. -/
theorem import_csv_rows_imports_all (store : List Point)
    (rows : List (ℚ × ℚ × Int)) (ts : Nat) :
    (import_csv_rows store rows ts).map (fun p => (p.x, p.y, p.rssi)) = rows :=
  add_rows_map rows ts

/-- Claim C3, counterexample: `calculate_stats` on the empty store
returns the empty dict (`none`), not a stats object with zero-valued
fields — `totalPoints` and the other fields are absent. -/
theorem stats_empty_store_empty_dict :
    calculate_stats ([] : List Point) = none := rfl

/-- Claim C3 (amended): `calculate_stats` returns the empty dict exactly
on the empty store, and a fully populated stats object otherwise; the UI
only reads stats fields when the store is non-empty (line 232). -/
theorem stats_none_iff_empty (pts : List Point) :
    calculate_stats pts = none ↔ pts = [] := by
  cases pts <;> simp [calculate_stats]

/-- Claim C4: `get_rssi_quality` is total, and on every integer rssi in
[-120, -20] the five bands partition the range with no gap or overlap:
rssi ≥ -60 iff Excellent, -70 ≤ rssi < -60 iff Good, -80 ≤ rssi < -70
iff Fair, -90 ≤ rssi < -80 iff Poor, rssi < -90 iff Critical — so
exactly one quality is returned. -/
theorem classify_bands (rssi : Int) (h1 : -120 ≤ rssi) (h2 : rssi ≤ -20) :
    ((-60 ≤ rssi) ↔ get_rssi_quality rssi = .Excellent) ∧
    ((-70 ≤ rssi ∧ rssi < -60) ↔ get_rssi_quality rssi = .Good) ∧
    ((-80 ≤ rssi ∧ rssi < -70) ↔ get_rssi_quality rssi = .Fair) ∧
    ((-90 ≤ rssi ∧ rssi < -80) ↔ get_rssi_quality rssi = .Poor) ∧
    ((rssi < -90) ↔ get_rssi_quality rssi = .Critical) := by
  unfold get_rssi_quality
  split_ifs with hA hB hC hD <;> simp_all <;> omega

/-- Claim C4, witness at rssi = -75 (a Fair point). -/
theorem classify_bands_witness :
    (-120 ≤ (-75 : Int)) ∧ ((-75 : Int) ≤ -20) ∧
    get_rssi_quality (-75) = .Fair :=
  ⟨by decide, by decide,
   ((classify_bands (-75) (by decide) (by decide)).2.2.1).mp (by decide)⟩

/-- Claim C5: for every non-empty store, the five per-quality counts of
`calculate_stats` sum exactly to `total_points`. -/
theorem stats_counts_sum (pts : List Point) (s : Stats)
    (h : calculate_stats pts = some s) :
    s.excellent + s.good + s.fair + s.poor + s.critical = s.total_points := by
  cases pts with
  | nil => simp [calculate_stats] at h
  | cons p rest =>
    simp only [calculate_stats, Option.some.injEq] at h
    subst h
    exact countP_bands_partition (p :: rest)

/-- Claim C5, witness on a one-point store. -/
theorem stats_counts_sum_witness :
    calculate_stats
        [{ x := 0, y := 0, rssi := -100, quality := .Critical, timestamp := 0 }] =
      some { total_points := 1, avg_rssi := -100, min_rssi := -100,
             max_rssi := -100, excellent := 0, good := 0, fair := 0,
             poor := 0, critical := 1, agv_suitable := 0,
             coverage_percent := 0 } ∧
    (0 : Nat) + 0 + 0 + 0 + 1 = 1 :=
  ⟨by simp [calculate_stats, List.countP_cons],
   stats_counts_sum
     [{ x := 0, y := 0, rssi := -100, quality := .Critical, timestamp := 0 }]
     { total_points := 1, avg_rssi := -100, min_rssi := -100, max_rssi := -100,
       excellent := 0, good := 0, fair := 0, poor := 0, critical := 1,
       agv_suitable := 0, coverage_percent := 0 }
     (by simp [calculate_stats, List.countP_cons])⟩

theorem parseCsvRow_render (p : Point) :
    parseCsvRow 0 1 2
      [.num p.x, .num p.y, .num (p.rssi : ℚ),
       .str (qualityName p.quality), .str (toString p.timestamp)] =
      some (p.x, p.y, p.rssi) := by
  simp [parseCsvRow, Rat.den_intCast, Rat.num_intCast]

theorem parseCsvRows_render (pts : List Point) :
    parseCsvRows 0 1 2
        (pts.map (fun p =>
          [.num p.x, .num p.y, .num (p.rssi : ℚ),
           .str (qualityName p.quality), .str (toString p.timestamp)])) =
      some (pts.map (fun p => (p.x, p.y, p.rssi))) := by
  induction pts with
  | nil => rfl
  | cons p pts ih =>
    simp only [List.map_cons, parseCsvRows, parseCsvRow_render, ih,
      Option.bind_eq_bind, Option.some_bind]
    rfl

/-- Claim C6: parsing the CSV produced by the export reconstructs
exactly the original `(x, y, rssi)` tuples in the same order (quality
and timestamp columns are present but ignored by the import). -/
theorem csv_round_trip (pts : List Point) :
    parseCsvImport (renderCsv pts) =
      some (pts.map (fun p => (p.x, p.y, p.rssi))) := by
  have h : parseCsvImport (renderCsv pts) =
      parseCsvRows 0 1 2
        (pts.map (fun p =>
          [.num p.x, .num p.y, .num (p.rssi : ℚ),
           .str (qualityName p.quality), .str (toString p.timestamp)])) := rfl
  rw [h, parseCsvRows_render]

/-- Claim C7: the readiness verdict is the top-down three-way ladder on
the coverage percentage — ≥ 95 is Ready, [80, 95) is NeedsImprovement,
< 80 is NotReady — and at the boundary values 94.9, 95 and 79.9 it is
NeedsImprovement, Ready and NotReady respectively. -/
theorem readiness_ladder :
    (∀ c : ℚ, 95 ≤ c → readinessVerdict c = .Ready) ∧
    (∀ c : ℚ, 80 ≤ c → c < 95 → readinessVerdict c = .NeedsImprovement) ∧
    (∀ c : ℚ, c < 80 → readinessVerdict c = .NotReady) ∧
    readinessVerdict 94.9 = .NeedsImprovement ∧
    readinessVerdict 95 = .Ready ∧
    readinessVerdict 79.9 = .NotReady := by
  refine ⟨fun c h => ?_, fun c h1 h2 => ?_, fun c h => ?_, ?_, ?_, ?_⟩
  · simp [readinessVerdict, h]
  · simp [readinessVerdict, h1, not_le.mpr h2]
  · have h80 : ¬ (80 : ℚ) ≤ c := not_le.mpr h
    have h95 : ¬ (95 : ℚ) ≤ c := not_le.mpr (h.trans (by norm_num))
    simp [readinessVerdict, h80, h95]
  · norm_num [readinessVerdict]
  · norm_num [readinessVerdict]
  · norm_num [readinessVerdict]

/-- Claim C7, witness: the first conjunct applied at coverage 100. -/
theorem readiness_ladder_witness :
    (95 : ℚ) ≤ 100 ∧ readinessVerdict 100 = .Ready :=
  ⟨by norm_num, readiness_ladder.1 100 (by norm_num)⟩

/-- Claim C8, counterexample: loading the demo data over a non-empty
store does not give exactly the twelve demo points — the prior point is
still there (13 points, with the prior one first). -/
theorem demo_does_not_clear :
    (load_demo_data
        [{ x := 0, y := 0, rssi := -55, quality := .Excellent, timestamp := 0 }]
        0).map (fun p => (p.x, p.y, p.rssi)) ≠ demo_points := by
  decide

/-- Claim C8 (amended): the Demo Data action does not clear the store:
it appends the twelve demo points, in listed order, after whatever the
store already held. -/
theorem demo_appends_twelve (store : List Point) (ts : Nat) :
    load_demo_data store ts = store ++ load_demo_data [] ts ∧
    (load_demo_data [] ts).map (fun p => (p.x, p.y, p.rssi)) = demo_points :=
  ⟨add_rows_eq_append demo_points store ts, add_rows_map demo_points ts⟩

/-- Claim C9 (amended): the report depends only on the stats snapshot
and the generation time, never on the individual stored points, and has
a fixed number of lines (21) — there are no per-point lines. -/
theorem report_ignores_points (genTime : String) (s : Stats)
    (pts pts2 : List Point) :
    renderReport genTime s pts = renderReport genTime s pts2 ∧
    (renderReport genTime s pts).length = 21 :=
  ⟨rfl, rfl⟩

/-- Claim C9, counterexample: for the one-point store holding
`(0, 0, -55)` (whose stats the code computes as shown), the report does
not contain the per-point line `Point 1: (0m, 0m) = -55 dBm (Excellent)`
that the claim requires. -/
theorem report_has_no_point_lines :
    calculate_stats
        [{ x := 0, y := 0, rssi := -55, quality := .Excellent, timestamp := 0 }] =
      some { total_points := 1, avg_rssi := -55, min_rssi := -55,
             max_rssi := -55, excellent := 1, good := 0, fair := 0,
             poor := 0, critical := 0, agv_suitable := 1,
             coverage_percent := 100 } ∧
    ¬ (("Point 1: (0m, 0m) = -55 dBm (Excellent)") ∈
        renderReport ("2024-01-01 12:00:00")
          { total_points := 1, avg_rssi := -55, min_rssi := -55,
            max_rssi := -55, excellent := 1, good := 0, fair := 0,
            poor := 0, critical := 0, agv_suitable := 1,
            coverage_percent := 100 }
          [{ x := 0, y := 0, rssi := -55, quality := .Excellent,
             timestamp := 0 }]) := by
  constructor
  · simp [calculate_stats, List.countP_cons]
  · decide

/-- Claim C10: after any sequence of add, clear, demo-load and import
operations starting from the empty session store, every stored point
carries `quality = get_rssi_quality rssi` — no stale quality label. -/
theorem quality_invariant (ops : List Op) (p : Point) (h : p ∈ run ops) :
    p.quality = get_rssi_quality p.rssi := by
  suffices H : ∀ (s : List Point),
      (∀ q ∈ s, q.quality = get_rssi_quality q.rssi) →
      ∀ q ∈ ops.foldl step s, q.quality = get_rssi_quality q.rssi by
    exact H [] (by simp) p h
  clear h
  induction ops with
  | nil => intro s hs q hq; exact hs q hq
  | cons op ops ih =>
    intro s hs q hq
    refine ih (step s op) ?_ q hq
    intro q2 hq2
    cases op with
    | addPoint x y rssi ts =>
      simp only [step, add_data_point, List.mem_append,
        List.mem_singleton] at hq2
      rcases hq2 with h3 | h3
      · exact hs q2 h3
      · subst h3; rfl
    | clearAll => simp [step] at hq2
    | demo ts =>
      rcases add_rows_quality demo_points s ts q2 hq2 with h3 | h3
      · exact hs q2 h3
      · exact h3
    | importCsv rows ts =>
      rcases add_rows_quality rows [] ts q2 hq2 with h3 | h3
      · simp at h3
      · exact h3

/-- Claim C10, witness: the invariant applied to the store reached by a
single add of `(0, 0, -55)`. -/
theorem quality_invariant_witness :
    ({ x := 0, y := 0, rssi := -55, quality := .Excellent,
       timestamp := 0 } : Point) ∈ run [Op.addPoint 0 0 (-55) 0] ∧
    ({ x := 0, y := 0, rssi := -55, quality := .Excellent,
       timestamp := 0 } : Point).quality = get_rssi_quality (-55) := by
  refine ⟨by decide, ?_⟩
  exact quality_invariant [Op.addPoint 0 0 (-55) 0] _ (by decide)

end RssiTracker
